import Mathlib

/-!
# Verification of `boofuzz.socket_connection.SocketConnection`

A shallow embedding of `src/boofuzz/socket_connection.py` (a transport
connection over TCP / SSL / UDP / raw layer-2 / raw layer-3 sockets) and
proofs about its construction-time validation, send-path truncation and
receive-path error classification.

Modelling conventions:
* Byte strings are `List Nat`.
* The underlying OS socket is modelled as an oracle: the outcome of the one
  blocking socket call an operation makes is an explicit parameter
  (`SockOutcome` for `recv`, `ConnectOutcome` for the connect inside `open`).
* `send` returns a description (`SendTo`) of exactly which bytes and which
  address tuple are handed to the underlying socket write.
* Python exceptions become explicit error values; the distinct raise sites of
  the source are distinguishable constructors.
-/

namespace Boofuzz

/-- `ETH_P_IP = 0x0800`, the default Ethernet protocol number. -/
def ETH_P_IP : Nat := 0x0800

/-- Modelled from the spec: `ip_constants.UDP_MAX_LENGTH` (the module
`ip_constants` is not part of the given source).  The source comment calls it
the "UDPv4 theoretical limit"; the constructor always overwrites the `udp`
table entry, so no theorem depends on this value. -/
def UDP_MAX_LENGTH : Nat := 65507

/-- ASCII lower-casing of a single character, the fragment of Python
`str.lower` relevant here (every protocol name compared against is ASCII). -/
def charLower (ch : Char) : Char :=
  if 65 ≤ ch.toNat ∧ ch.toNat ≤ 90 then Char.ofNat (ch.toNat + 32) else ch

/-- Python `proto.lower()` restricted to the ASCII range. -/
def strLower (s : String) : String := ⟨s.data.map charLower⟩

/-- OS error numbers as seen by the source (`e.errno`).  The five names the
source compares against are distinguished constructors; `other n` stands for
every remaining errno value. -/
inductive Errno where
  | ECONNABORTED
  | ECONNREFUSED
  | ECONNRESET
  | ENETRESET
  | ETIMEDOUT
  | other (n : Nat)
deriving DecidableEq, Repr

/-- The mutable class-level `MAX_PAYLOADS` dict.  It has exactly the three
keys `"raw-l2"`, `"raw-l3"`, `"udp"`; the constructor overwrites the `udp`
entry. -/
structure MaxPayloads where
  rawL2 : Nat
  rawL3 : Nat
  udp : Nat
deriving DecidableEq, Repr

/-- The literal class-level initializer of `MAX_PAYLOADS`:
`{"raw-l2": 1514, "raw-l3": 1500, "udp": ip_constants.UDP_MAX_LENGTH}`. -/
def MAX_PAYLOADS : MaxPayloads := ⟨1514, 1500, UDP_MAX_LENGTH⟩

/-- Dict lookup `MAX_PAYLOADS[proto]`; `none` models a `KeyError`. -/
def MaxPayloads.lookup (t : MaxPayloads) (proto : String) : Option Nat :=
  if proto = "raw-l2" then some t.rawL2
  else if proto = "raw-l3" then some t.rawL3
  else if proto = "udp" then some t.udp
  else none

/-- `SocketConnection._PROTOCOLS`. -/
def _PROTOCOLS : List String := ["tcp", "ssl", "udp", "raw-l2", "raw-l3"]

/-- `SocketConnection._PROTOCOLS_PORT_REQUIRED`. -/
def _PROTOCOLS_PORT_REQUIRED : List String := ["tcp", "ssl", "udp"]

/-- The configuration a successfully constructed `SocketConnection` instance
stores (its `_sock` handle is modelled separately, as an operation
parameter). -/
structure SocketConnection where
  host : String
  port : Option Nat
  bind : Option (String × Nat)
  timeout : ℚ
  proto : String
  ethernet_proto : Nat
  l2_dst : List Nat
deriving DecidableEq, Repr

/-- The two exceptions `__init__` can raise:
`invalidProtocol` is the `sex.SullyRuntimeError("INVALID PROTOCOL SPECIFIED: …")`
raise (the spec's `InvalidProtocolError`), `missingPort` is the
`ValueError("__init__() argument port required …")` raise (the spec's
`MissingPortError`). -/
inductive ConstructError where
  | invalidProtocol (proto : String)
  | missingPort (proto : String)
deriving DecidableEq, Repr

/-- Result of running `__init__`: the constructed instance (or the exception),
together with the class-level `MAX_PAYLOADS` table after the
`self.MAX_PAYLOADS["udp"] = helpers.get_max_udp_size()` assignment, which
happens before either validation check. -/
structure InitResult where
  conn : Except ConstructError SocketConnection
  table : MaxPayloads
deriving Repr

/-- `SocketConnection.__init__`.  `max_udp_size` is modelled from the spec:
the value of `helpers.get_max_udp_size()` (module `helpers` is not part of the
given source), the platform UDP payload ceiling queried from the environment;
it is passed explicitly and assumed deterministic for a fixed host.
`table` is the class-level `MAX_PAYLOADS` dict going in. -/
def SocketConnection.init (max_udp_size : Nat) (table : MaxPayloads)
    (host : String) (port : Option Nat) (proto : String)
    (bind : Option (String × Nat)) (timeout : ℚ)
    (ethernet_proto : Nat) (l2_dst : List Nat) : InitResult :=
  let table' : MaxPayloads := { table with udp := max_udp_size }
  let p := strLower proto
  let conn : Except ConstructError SocketConnection :=
    if p ∉ _PROTOCOLS then
      .error (.invalidProtocol p)
    else if p ∈ _PROTOCOLS_PORT_REQUIRED ∧ port = none then
      .error (.missingPort p)
    else
      .ok ⟨host, port, bind, timeout, p, ethernet_proto, l2_dst⟩
  ⟨conn, table'⟩

/-- Outcome of the blocking `connect` inside `open()` for `tcp`/`ssl`. -/
inductive ConnectOutcome where
  | ok
  | err (e : Errno)
deriving DecidableEq, Repr

/-- The errors `open()` can surface: `targetConnectionRefused` is
`sex.BoofuzzTargetConnectionFailedError` (the spec's
`TargetConnectionRefusedError`); `socketError` is a connect-time
`socket.error` re-raised unchanged; `invalidProtocol` is the defensive
dispatch `else` branch. -/
inductive OpenError where
  | targetConnectionRefused
  | socketError (e : Errno)
  | invalidProtocol (proto : String)
deriving DecidableEq, Repr

/-- Description of the live handle `open()` leaves in `self._sock`. -/
inductive SockSpec where
  | inetStream (host : String) (port : Option Nat) (sslWrapped : Bool)
  | inetDgram (bind : Option (String × Nat))
  | packetRaw
  | packetDgram
deriving DecidableEq, Repr

/-- `SocketConnection.open`.  Socket creation is dispatched on `self.proto`;
for `tcp`/`ssl` the blocking `connect((host, port))` outcome is the oracle
parameter `co`: `ECONNREFUSED` is translated, any other `socket.error`
propagates, and on success an `ssl` connection wraps the handle. -/
def SocketConnection.open_ (c : SocketConnection) (co : ConnectOutcome) :
    Except OpenError SockSpec :=
  if c.proto = "tcp" ∨ c.proto = "ssl" then
    match co with
    | .ok => .ok (.inetStream c.host c.port (c.proto = "ssl"))
    | .err e =>
      if e = .ECONNREFUSED then .error .targetConnectionRefused
      else .error (.socketError e)
  else if c.proto = "udp" then
    .ok (.inetDgram c.bind)
  else if c.proto = "raw-l2" then
    .ok .packetRaw
  else if c.proto = "raw-l3" then
    .ok .packetDgram
  else
    .error (.invalidProtocol c.proto)

/-- Oracle for the one socket read `recv` may perform: either data is
available (`avail pending`; the call returns at most `max_bytes` of it), or
the call raises `socket.timeout`, or it raises `socket.error` with the given
errno. -/
inductive SockOutcome where
  | avail (pending : List Nat)
  | timeout
  | err (e : Errno)
deriving DecidableEq, Repr

/-- The Python exceptions that can escape the `try` body of `recv`:
the two socket exceptions, the two `SullyRuntimeError` raise sites, and the
`AttributeError` from touching `self._sock` while it is `None`. -/
inductive PyExc where
  | sockTimeout
  | sockError (e : Errno)
  | runtimeNoBind
  | runtimeInvalidProto (proto : String)
  | attributeError
deriving DecidableEq, Repr

/-- The errors `recv` can surface to its caller:
`receiveNotSupported` is the `SullyRuntimeError` for UDP without a bind pair
(the spec's `ReceiveNotSupportedError`), `socketError` a propagated
`socket.error`, `invalidProtocol` the defensive `else` branch, and
`attributeError` the effect of calling `recv` with no live handle. -/
inductive RecvError where
  | receiveNotSupported
  | socketError (e : Errno)
  | invalidProtocol (proto : String)
  | attributeError
deriving DecidableEq, Repr

/-- One read on the (possibly absent) handle: `self._sock.recv(max_bytes)` or
`self._sock.recvfrom(max_bytes)`.  `sock = none` models `_sock is None`
(before `open()` / after `close()`), where attribute access raises
`AttributeError`. -/
def sockRead (sock : Option SockOutcome) (max_bytes : Nat) :
    Except PyExc (List Nat) :=
  match sock with
  | none => .error .attributeError
  | some (.avail pending) => .ok (pending.take max_bytes)
  | some .timeout => .error .sockTimeout
  | some (.err e) => .error (.sockError e)

/-- The `try` body of `recv`: the protocol dispatch. -/
def recvBody (c : SocketConnection) (sock : Option SockOutcome)
    (max_bytes : Nat) : Except PyExc (List Nat) :=
  if c.proto = "tcp" ∨ c.proto = "ssl" then
    sockRead sock max_bytes
  else if c.proto = "udp" then
    if c.bind.isSome then sockRead sock max_bytes
    else .error .runtimeNoBind
  else if c.proto = "raw-l2" ∨ c.proto = "raw-l3" then
    .ok []
  else
    .error (.runtimeInvalidProto c.proto)

/-- `SocketConnection.recv`: the `try` body followed by the two `except`
handlers.  `except socket.timeout` yields an empty payload;
`except socket.error` yields an empty payload for the five listed errnos and
re-raises otherwise; every other exception propagates. -/
def SocketConnection.recv (c : SocketConnection) (sock : Option SockOutcome)
    (max_bytes : Nat) : Except RecvError (List Nat) :=
  match recvBody c sock max_bytes with
  | .ok d => .ok d
  | .error .sockTimeout => .ok []
  | .error (.sockError e) =>
    if e = .ECONNABORTED ∨ e = .ECONNREFUSED ∨ e = .ECONNRESET ∨
       e = .ENETRESET ∨ e = .ETIMEDOUT then
      .ok []
    else
      .error (.socketError e)
  | .error .runtimeNoBind => .error .receiveNotSupported
  | .error (.runtimeInvalidProto p) => .error (.invalidProtocol p)
  | .error .attributeError => .error .attributeError

/-- What `send` hands to the underlying socket: the exact byte payload and
the address-tuple shape of the write call. -/
inductive SendTo where
  | stream (data : List Nat)
  | toAddr (data : List Nat) (host : String) (port : Option Nat)
  | toL2 (data : List Nat) (host : String)
  | toL3 (data : List Nat) (host : String) (ethernet_proto : Nat)
      (l2_dst : List Nat)
deriving DecidableEq, Repr

/-- The byte payload of a dispatched write. -/
def SendTo.payload : SendTo → List Nat
  | .stream d => d
  | .toAddr d _ _ => d
  | .toL2 d _ => d
  | .toL3 d _ _ _ => d

/-- The error `send` can raise itself: the defensive `else` branch. -/
inductive SendError where
  | invalidProtocol (proto : String)
deriving DecidableEq, Repr

/-- `SocketConnection.send`: `data[:self.MAX_PAYLOADS[self.proto]]` under a
`try`/`except KeyError: pass`, then the protocol dispatch of the write.
`table` is the class-level `MAX_PAYLOADS` dict as `send` sees it. -/
def SocketConnection.send (c : SocketConnection) (table : MaxPayloads)
    (data : List Nat) : Except SendError SendTo :=
  let data :=
    match table.lookup c.proto with
    | some m => data.take m
    | none => data
  if c.proto = "tcp" ∨ c.proto = "ssl" then
    .ok (.stream data)
  else if c.proto = "udp" then
    .ok (.toAddr data c.host c.port)
  else if c.proto = "raw-l2" then
    .ok (.toL2 data c.host)
  else if c.proto = "raw-l3" then
    .ok (.toL3 data c.host c.ethernet_proto c.l2_dst)
  else
    .error (.invalidProtocol c.proto)

/-- The payload of a successful `send` dispatch, `none` if `send` raised. -/
def sentPayload : Except SendError SendTo → Option (List Nat)
  | .ok s => some s.payload
  | .error _ => none

/-! ## Concrete instances used by the witness theorems -/

/-- A `tcp` connection as constructed by
`SocketConnection(host='127.0.0.1', port=8080)`. -/
def tcpConn : SocketConnection :=
  ⟨"127.0.0.1", some 8080, none, 5, "tcp", ETH_P_IP, List.replicate 6 255⟩

/-- A `udp` connection with a bind pair. -/
def udpBoundConn : SocketConnection :=
  ⟨"127.0.0.1", some 8888, some ("127.0.0.1", 9999), 5, "udp", ETH_P_IP,
   List.replicate 6 255⟩

/-- A `udp` connection without a bind pair. -/
def udpUnboundConn : SocketConnection :=
  ⟨"127.0.0.1", some 8888, none, 5, "udp", ETH_P_IP, List.replicate 6 255⟩

/-- A `raw-l2` connection on interface `eth0`. -/
def rawL2Conn : SocketConnection :=
  ⟨"eth0", none, none, 5, "raw-l2", ETH_P_IP, List.replicate 6 255⟩

/-- A `raw-l3` connection on interface `eth0`. -/
def rawL3Conn : SocketConnection :=
  ⟨"eth0", none, none, 5, "raw-l3", ETH_P_IP, List.replicate 6 255⟩

/-- An `ssl` connection. -/
def sslConn : SocketConnection :=
  ⟨"127.0.0.1", some 443, none, 5, "ssl", ETH_P_IP, List.replicate 6 255⟩

/-! ## Claims -/

/-- **C1.** For every transport kind that supports receive (`tcp`, `ssl`, or
`udp` with a bind pair) and every `max_bytes`: a `recv` whose underlying
socket operation raises `socket.timeout` returns an empty payload; one whose
operation raises a `socket.error` with errno `ECONNABORTED`, `ECONNREFUSED`,
`ECONNRESET`, `ENETRESET` or `ETIMEDOUT` also returns an empty payload; and
one whose operation raises a `socket.error` with any other errno propagates
that error unchanged. -/
theorem recv_error_classification (c : SocketConnection) (max_bytes : Nat)
    (hk : c.proto = "tcp" ∨ c.proto = "ssl" ∨
          (c.proto = "udp" ∧ c.bind.isSome)) :
    c.recv (some .timeout) max_bytes = .ok [] ∧
    (∀ e : Errno,
      (e = .ECONNABORTED ∨ e = .ECONNREFUSED ∨ e = .ECONNRESET ∨
       e = .ENETRESET ∨ e = .ETIMEDOUT) →
      c.recv (some (.err e)) max_bytes = .ok []) ∧
    (∀ e : Errno,
      ¬(e = .ECONNABORTED ∨ e = .ECONNREFUSED ∨ e = .ECONNRESET ∨
        e = .ENETRESET ∨ e = .ETIMEDOUT) →
      c.recv (some (.err e)) max_bytes = .error (.socketError e)) := by
  have hbody : ∀ o : SockOutcome,
      recvBody c (some o) max_bytes = sockRead (some o) max_bytes := by
    intro o
    rcases hk with h | h | ⟨h, hb⟩
    · simp [recvBody, h]
    · simp [recvBody, h]
    · simp [recvBody, h, hb]
  refine ⟨?_, ?_, ?_⟩
  · simp [SocketConnection.recv, hbody, sockRead]
  · intro e he
    rcases he with h5 | h5 | h5 | h5 | h5 <;> subst h5 <;>
      simp [SocketConnection.recv, hbody, sockRead]
  · intro e he
    simp [SocketConnection.recv, hbody, sockRead, he]

/-- Witness for C1, at a concrete `tcp` connection. -/
theorem recv_error_classification_witness :
    tcpConn.recv (some .timeout) 64 = .ok [] ∧
    (∀ e : Errno,
      (e = .ECONNABORTED ∨ e = .ECONNREFUSED ∨ e = .ECONNRESET ∨
       e = .ENETRESET ∨ e = .ETIMEDOUT) →
      tcpConn.recv (some (.err e)) 64 = .ok []) ∧
    (∀ e : Errno,
      ¬(e = .ECONNABORTED ∨ e = .ECONNREFUSED ∨ e = .ECONNRESET ∨
        e = .ENETRESET ∨ e = .ETIMEDOUT) →
      tcpConn.recv (some (.err e)) 64 = .error (.socketError e)) :=
  recv_error_classification tcpConn 64 (Or.inl rfl)

/-- **C2.** For a constructed connection (with its instance's `MAX_PAYLOADS`
table): if the kind is `udp`, `raw-l2` or `raw-l3`, `send data` hands exactly
the first `min (data.length) ceiling` bytes — i.e. `data.take ceiling` — to
the underlying socket write, where the ceiling is the kind's table entry
(the platform UDP maximum for `udp`, `1514` for `raw-l2`, `1500` for
`raw-l3`); if the kind is `tcp` or `ssl`, `send data` hands `data` to the
socket unmodified. -/
theorem send_truncation (env : Nat) (host : String) (port : Option Nat)
    (proto : String) (bind : Option (String × Nat)) (timeout : ℚ)
    (ep : Nat) (dst : List Nat) (c : SocketConnection) (data : List Nat)
    (h : (SocketConnection.init env MAX_PAYLOADS host port proto bind timeout
            ep dst).conn = .ok c) :
    (c.proto = "udp" →
      sentPayload (c.send (SocketConnection.init env MAX_PAYLOADS host port
          proto bind timeout ep dst).table data) = some (data.take env)) ∧
    (c.proto = "raw-l2" →
      sentPayload (c.send (SocketConnection.init env MAX_PAYLOADS host port
          proto bind timeout ep dst).table data) = some (data.take 1514)) ∧
    (c.proto = "raw-l3" →
      sentPayload (c.send (SocketConnection.init env MAX_PAYLOADS host port
          proto bind timeout ep dst).table data) = some (data.take 1500)) ∧
    ((c.proto = "tcp" ∨ c.proto = "ssl") →
      sentPayload (c.send (SocketConnection.init env MAX_PAYLOADS host port
          proto bind timeout ep dst).table data) = some data) := by
  have ht : (SocketConnection.init env MAX_PAYLOADS host port proto bind
      timeout ep dst).table = ⟨1514, 1500, env⟩ := rfl
  rw [ht]
  refine ⟨?_, ?_, ?_, ?_⟩
  · intro hp
    simp [SocketConnection.send, MaxPayloads.lookup, sentPayload,
      SendTo.payload, hp]
  · intro hp
    simp [SocketConnection.send, MaxPayloads.lookup, sentPayload,
      SendTo.payload, hp]
  · intro hp
    simp [SocketConnection.send, MaxPayloads.lookup, sentPayload,
      SendTo.payload, hp]
  · intro hp
    rcases hp with hp | hp <;>
      simp [SocketConnection.send, MaxPayloads.lookup, sentPayload,
        SendTo.payload, hp]

/-- Witness for C2, at a concrete `udp` construction with platform UDP
ceiling `9216`. -/
theorem send_truncation_witness :
    (udpBoundConn.proto = "udp" →
      sentPayload (udpBoundConn.send (SocketConnection.init 9216 MAX_PAYLOADS
          "127.0.0.1" (some 8888) "udp" (some ("127.0.0.1", 9999)) 5 ETH_P_IP
          (List.replicate 6 255)).table [1, 2, 3])
        = some (List.take 9216 [1, 2, 3])) ∧
    (udpBoundConn.proto = "raw-l2" →
      sentPayload (udpBoundConn.send (SocketConnection.init 9216 MAX_PAYLOADS
          "127.0.0.1" (some 8888) "udp" (some ("127.0.0.1", 9999)) 5 ETH_P_IP
          (List.replicate 6 255)).table [1, 2, 3])
        = some (List.take 1514 [1, 2, 3])) ∧
    (udpBoundConn.proto = "raw-l3" →
      sentPayload (udpBoundConn.send (SocketConnection.init 9216 MAX_PAYLOADS
          "127.0.0.1" (some 8888) "udp" (some ("127.0.0.1", 9999)) 5 ETH_P_IP
          (List.replicate 6 255)).table [1, 2, 3])
        = some (List.take 1500 [1, 2, 3])) ∧
    ((udpBoundConn.proto = "tcp" ∨ udpBoundConn.proto = "ssl") →
      sentPayload (udpBoundConn.send (SocketConnection.init 9216 MAX_PAYLOADS
          "127.0.0.1" (some 8888) "udp" (some ("127.0.0.1", 9999)) 5 ETH_P_IP
          (List.replicate 6 255)).table [1, 2, 3])
        = some [1, 2, 3]) :=
  send_truncation 9216 "127.0.0.1" (some 8888) "udp" (some ("127.0.0.1", 9999))
    5 ETH_P_IP (List.replicate 6 255) udpBoundConn [1, 2, 3] rfl

/-- **C3.** A `proto` string whose lowercase form is not in
`{tcp, ssl, udp, raw-l2, raw-l3}` makes construction raise the
invalid-protocol error; `proto` is treated case-insensitively: any casing
variant of a supported kind yields exactly the same construction result as
the all-lowercase spelling (hence an identically-behaving connection), and
construction succeeds whenever the kind's port requirement is met. -/
theorem proto_case_insensitive (env : Nat) (t : MaxPayloads) (host : String)
    (port : Option Nat) (proto : String) (bind : Option (String × Nat))
    (timeout : ℚ) (ep : Nat) (dst : List Nat) :
    (strLower proto ∉ _PROTOCOLS →
      (SocketConnection.init env t host port proto bind timeout ep dst).conn
        = .error (.invalidProtocol (strLower proto))) ∧
    (strLower proto ∈ _PROTOCOLS →
      SocketConnection.init env t host port proto bind timeout ep dst
        = SocketConnection.init env t host port (strLower proto) bind timeout
            ep dst ∧
      ((strLower proto ∈ _PROTOCOLS_PORT_REQUIRED → port ≠ none) →
        ∃ c, (SocketConnection.init env t host port proto bind timeout ep
                dst).conn = .ok c)) := by
  constructor
  · intro h
    simp [SocketConnection.init, h]
  · intro h
    simp only [_PROTOCOLS] at h
    simp at h
    rcases h with hp | hp | hp | hp | hp
    · refine ⟨?_, ?_⟩
      · simp [SocketConnection.init, hp, show strLower "tcp" = "tcp" from rfl]
      · intro hport
        have hne : port ≠ none := hport (by rw [hp]; decide)
        simp [SocketConnection.init, hp, hne, _PROTOCOLS,
          _PROTOCOLS_PORT_REQUIRED]
    · refine ⟨?_, ?_⟩
      · simp [SocketConnection.init, hp, show strLower "ssl" = "ssl" from rfl]
      · intro hport
        have hne : port ≠ none := hport (by rw [hp]; decide)
        simp [SocketConnection.init, hp, hne, _PROTOCOLS,
          _PROTOCOLS_PORT_REQUIRED]
    · refine ⟨?_, ?_⟩
      · simp [SocketConnection.init, hp, show strLower "udp" = "udp" from rfl]
      · intro hport
        have hne : port ≠ none := hport (by rw [hp]; decide)
        simp [SocketConnection.init, hp, hne, _PROTOCOLS,
          _PROTOCOLS_PORT_REQUIRED]
    · refine ⟨?_, ?_⟩
      · simp [SocketConnection.init, hp,
          show strLower "raw-l2" = "raw-l2" from rfl]
      · intro _
        simp [SocketConnection.init, hp, _PROTOCOLS,
          _PROTOCOLS_PORT_REQUIRED]
    · refine ⟨?_, ?_⟩
      · simp [SocketConnection.init, hp,
          show strLower "raw-l3" = "raw-l3" from rfl]
      · intro _
        simp [SocketConnection.init, hp, _PROTOCOLS,
          _PROTOCOLS_PORT_REQUIRED]

/-- Witness for C3: `"TCP"` constructs exactly like `"tcp"` and succeeds. -/
theorem proto_case_insensitive_witness :
    SocketConnection.init 9216 MAX_PAYLOADS "127.0.0.1" (some 8080) "TCP"
        none 5 ETH_P_IP (List.replicate 6 255)
      = SocketConnection.init 9216 MAX_PAYLOADS "127.0.0.1" (some 8080) "tcp"
          none 5 ETH_P_IP (List.replicate 6 255) ∧
    ∃ c, (SocketConnection.init 9216 MAX_PAYLOADS "127.0.0.1" (some 8080)
            "TCP" none 5 ETH_P_IP (List.replicate 6 255)).conn = .ok c := by
  have h := (proto_case_insensitive 9216 MAX_PAYLOADS "127.0.0.1" (some 8080)
    "TCP" none 5 ETH_P_IP (List.replicate 6 255)).2 (by decide)
  exact ⟨h.1, h.2 (fun _ => Option.some_ne_none 8080)⟩

/-- **C4.** Constructing a `tcp`, `ssl` or `udp` connection with an absent
port raises the missing-port error; constructing a `raw-l2` or `raw-l3`
connection succeeds with any port value (null or not), and the port has no
effect on any later operation: the connections built with two different
ports have identical `open`, `send` and `recv` behavior. -/
theorem port_validation (env : Nat) (t : MaxPayloads) (host : String)
    (proto : String) (bind : Option (String × Nat)) (timeout : ℚ)
    (ep : Nat) (dst : List Nat) :
    ((strLower proto = "tcp" ∨ strLower proto = "ssl" ∨
      strLower proto = "udp") →
      (SocketConnection.init env t host none proto bind timeout ep dst).conn
        = .error (.missingPort (strLower proto))) ∧
    ((strLower proto = "raw-l2" ∨ strLower proto = "raw-l3") →
      ∀ port₁ port₂ : Option Nat, ∃ c₁ c₂ : SocketConnection,
        (SocketConnection.init env t host port₁ proto bind timeout ep
          dst).conn = .ok c₁ ∧
        (SocketConnection.init env t host port₂ proto bind timeout ep
          dst).conn = .ok c₂ ∧
        (∀ co : ConnectOutcome, c₁.open_ co = c₂.open_ co) ∧
        (∀ (tb : MaxPayloads) (data : List Nat),
          c₁.send tb data = c₂.send tb data) ∧
        (∀ (sock : Option SockOutcome) (mb : Nat),
          c₁.recv sock mb = c₂.recv sock mb)) := by
  constructor
  · intro hp
    rcases hp with hp | hp | hp <;>
      simp [SocketConnection.init, hp, _PROTOCOLS, _PROTOCOLS_PORT_REQUIRED]
  · intro hp port₁ port₂
    rcases hp with hp | hp
    · refine ⟨⟨host, port₁, bind, timeout, "raw-l2", ep, dst⟩,
        ⟨host, port₂, bind, timeout, "raw-l2", ep, dst⟩, ?_, ?_, ?_, ?_, ?_⟩
      · simp [SocketConnection.init, hp, _PROTOCOLS,
          _PROTOCOLS_PORT_REQUIRED]
      · simp [SocketConnection.init, hp, _PROTOCOLS,
          _PROTOCOLS_PORT_REQUIRED]
      · intro co
        simp [SocketConnection.open_]
      · intro tb data
        simp [SocketConnection.send]
      · intro sock mb
        simp [SocketConnection.recv, recvBody]
    · refine ⟨⟨host, port₁, bind, timeout, "raw-l3", ep, dst⟩,
        ⟨host, port₂, bind, timeout, "raw-l3", ep, dst⟩, ?_, ?_, ?_, ?_, ?_⟩
      · simp [SocketConnection.init, hp, _PROTOCOLS,
          _PROTOCOLS_PORT_REQUIRED]
      · simp [SocketConnection.init, hp, _PROTOCOLS,
          _PROTOCOLS_PORT_REQUIRED]
      · intro co
        simp [SocketConnection.open_]
      · intro tb data
        simp [SocketConnection.send]
      · intro sock mb
        simp [SocketConnection.recv, recvBody]

/-- Witness for C4: a `udp` construction without a port fails with the
missing-port error, while `raw-l2` constructions with port `some 5` and
`none` both succeed and behave identically. -/
theorem port_validation_witness :
    (SocketConnection.init 9216 MAX_PAYLOADS "127.0.0.1" none "udp" none 5
        ETH_P_IP (List.replicate 6 255)).conn
      = .error (.missingPort "udp") ∧
    (∃ c₁ c₂ : SocketConnection,
      (SocketConnection.init 9216 MAX_PAYLOADS "eth0" (some 5) "raw-l2" none
        5 ETH_P_IP (List.replicate 6 255)).conn = .ok c₁ ∧
      (SocketConnection.init 9216 MAX_PAYLOADS "eth0" none "raw-l2" none 5
        ETH_P_IP (List.replicate 6 255)).conn = .ok c₂ ∧
      (∀ co : ConnectOutcome, c₁.open_ co = c₂.open_ co) ∧
      (∀ (tb : MaxPayloads) (data : List Nat),
        c₁.send tb data = c₂.send tb data) ∧
      (∀ (sock : Option SockOutcome) (mb : Nat),
        c₁.recv sock mb = c₂.recv sock mb)) :=
  ⟨(port_validation 9216 MAX_PAYLOADS "127.0.0.1" "udp" none 5 ETH_P_IP
      (List.replicate 6 255)).1 (Or.inr (Or.inr rfl)),
   (port_validation 9216 MAX_PAYLOADS "eth0" "raw-l2" none 5 ETH_P_IP
      (List.replicate 6 255)).2 (Or.inl rfl) (some 5) none⟩

/-- **C5.** On a `udp` connection without a bind pair, every `recv` fails
with the receive-not-supported error without attempting a read (the result
is the same for every state of the handle, including an absent one); with a
bind pair, `recv max_bytes` reads a single datagram of at most `max_bytes`
bytes from the bound socket and returns its payload. -/
theorem udp_recv_requires_bind (c : SocketConnection)
    (h : c.proto = "udp") :
    (c.bind = none →
      ∀ (sock : Option SockOutcome) (max_bytes : Nat),
        c.recv sock max_bytes = .error .receiveNotSupported) ∧
    (c.bind.isSome →
      ∀ (pending : List Nat) (max_bytes : Nat),
        c.recv (some (.avail pending)) max_bytes
          = .ok (pending.take max_bytes) ∧
        (pending.take max_bytes).length ≤ max_bytes) := by
  constructor
  · intro hb sock max_bytes
    simp [SocketConnection.recv, recvBody, h, hb]
  · intro hb pending max_bytes
    constructor
    · simp [SocketConnection.recv, recvBody, sockRead, h, hb]
    · simp only [List.length_take]
      omega

/-- Witness for C5, at a concrete unbound `udp` connection. -/
theorem udp_recv_requires_bind_witness :
    (udpUnboundConn.bind = none →
      ∀ (sock : Option SockOutcome) (max_bytes : Nat),
        udpUnboundConn.recv sock max_bytes
          = .error .receiveNotSupported) ∧
    (udpUnboundConn.bind.isSome →
      ∀ (pending : List Nat) (max_bytes : Nat),
        udpUnboundConn.recv (some (.avail pending)) max_bytes
          = .ok (pending.take max_bytes) ∧
        (pending.take max_bytes).length ≤ max_bytes) :=
  udp_recv_requires_bind udpUnboundConn rfl

/-- **C6.** On a `raw-l2` or `raw-l3` connection, `recv` returns an empty
payload unconditionally: for every `max_bytes` and every state of the
underlying handle (data available, timeout, socket error, or no handle at
all). -/
theorem raw_recv_empty (c : SocketConnection)
    (h : c.proto = "raw-l2" ∨ c.proto = "raw-l3") :
    ∀ (sock : Option SockOutcome) (max_bytes : Nat),
      c.recv sock max_bytes = .ok [] := by
  intro sock max_bytes
  rcases h with h | h <;> simp [SocketConnection.recv, recvBody, h]

/-- Witness for C6, at a concrete `raw-l2` connection with traffic pending
on the interface. -/
theorem raw_recv_empty_witness :
    rawL2Conn.recv (some (.avail [1, 2, 3])) 64 = .ok [] :=
  raw_recv_empty rawL2Conn (Or.inl rfl) (some (.avail [1, 2, 3])) 64

/-- **C7.** For a `tcp` or `ssl` connection, a blocking connect inside
`open()` failing with `ECONNREFUSED` makes `open()` raise the
target-connection-refused error, while a connect failing with a socket
error of any other errno propagates that error unchanged. -/
theorem open_connect_refused (c : SocketConnection)
    (h : c.proto = "tcp" ∨ c.proto = "ssl") :
    c.open_ (.err .ECONNREFUSED) = .error .targetConnectionRefused ∧
    (∀ e : Errno, e ≠ .ECONNREFUSED →
      c.open_ (.err e) = .error (.socketError e)) := by
  rcases h with h | h <;>
    exact ⟨by simp [SocketConnection.open_, h],
           fun e he => by simp [SocketConnection.open_, h, he]⟩

/-- Witness for C7, at a concrete `ssl` connection. -/
theorem open_connect_refused_witness :
    sslConn.open_ (.err .ECONNREFUSED) = .error .targetConnectionRefused ∧
    (∀ e : Errno, e ≠ .ECONNREFUSED →
      sslConn.open_ (.err e) = .error (.socketError e)) :=
  open_connect_refused sslConn (Or.inr rfl)

/-- **C8.** Every successfully constructed connection stores a kind that is
a lowercase member of `{tcp, ssl, udp, raw-l2, raw-l3}`; since no operation
of the embedding modifies the stored configuration (mirroring the source,
where no method assigns `self.proto`), the defensive invalid-protocol
branch at the dispatch point of each of `open()`, `send()` and `recv()` is
unreachable. -/
theorem dispatch_invalid_branch_unreachable (env : Nat) (t : MaxPayloads)
    (host : String) (port : Option Nat) (proto : String)
    (bind : Option (String × Nat)) (timeout : ℚ) (ep : Nat) (dst : List Nat)
    (c : SocketConnection)
    (h : (SocketConnection.init env t host port proto bind timeout ep
            dst).conn = .ok c) :
    c.proto ∈ _PROTOCOLS ∧ strLower c.proto = c.proto ∧
    (∀ (co : ConnectOutcome) (p : String),
      c.open_ co ≠ .error (.invalidProtocol p)) ∧
    (∀ (tb : MaxPayloads) (data : List Nat) (p : String),
      c.send tb data ≠ .error (.invalidProtocol p)) ∧
    (∀ (sock : Option SockOutcome) (max_bytes : Nat) (p : String),
      c.recv sock max_bytes ≠ .error (.invalidProtocol p)) := by
  by_cases h1 : strLower proto ∈ _PROTOCOLS
  · by_cases h2 : strLower proto ∈ _PROTOCOLS_PORT_REQUIRED ∧ port = none
    · simp [SocketConnection.init, h1, h2] at h
    · simp [SocketConnection.init, h1, h2] at h
      subst h
      have hmem : strLower proto ∈ _PROTOCOLS := h1
      simp only [_PROTOCOLS] at hmem
      simp at hmem
      refine ⟨h1, ?_, ?_, ?_, ?_⟩
      · show strLower (strLower proto) = strLower proto
        rcases hmem with hp | hp | hp | hp | hp <;> rw [hp] <;> rfl
      · intro co p
        rcases hmem with hp | hp | hp | hp | hp <;>
          cases co <;>
          simp [SocketConnection.open_, hp] <;>
          (try (split <;> simp))
      · intro tb data p
        rcases hmem with hp | hp | hp | hp | hp <;>
          simp [SocketConnection.send, hp]
      · intro sock max_bytes p
        rcases bind with _ | b <;>
          rcases hmem with hp | hp | hp | hp | hp <;>
          rcases sock with _ | o <;>
          (try cases o) <;>
          simp [SocketConnection.recv, recvBody, sockRead, hp] <;>
          (try (split <;> simp))
  · simp [SocketConnection.init, h1] at h

/-- Witness for C8, at the concrete `tcp` construction producing
`tcpConn`. -/
theorem dispatch_invalid_branch_unreachable_witness :
    tcpConn.proto ∈ _PROTOCOLS ∧ strLower tcpConn.proto = tcpConn.proto ∧
    (∀ (co : ConnectOutcome) (p : String),
      tcpConn.open_ co ≠ .error (.invalidProtocol p)) ∧
    (∀ (tb : MaxPayloads) (data : List Nat) (p : String),
      tcpConn.send tb data ≠ .error (.invalidProtocol p)) ∧
    (∀ (sock : Option SockOutcome) (max_bytes : Nat) (p : String),
      tcpConn.recv sock max_bytes ≠ .error (.invalidProtocol p)) :=
  dispatch_invalid_branch_unreachable 9216 MAX_PAYLOADS "127.0.0.1"
    (some 8080) "tcp" none 5 ETH_P_IP (List.replicate 6 255) tcpConn rfl

/-- **C9.** The `MAX_PAYLOADS` table is effectively instance-scoped:
construction stores the environment's UDP ceiling into the table (so the
table after any construction is exactly the incoming table with its `udp`
entry replaced), a later construction in the same environment leaves the
table unchanged, and no construction ever changes the `raw-l2` or `raw-l3`
ceilings. -/
theorem max_payloads_instance_scoped (env : Nat) (t : MaxPayloads)
    (host₁ host₂ : String) (port₁ port₂ : Option Nat) (proto₁ proto₂ : String)
    (bind₁ bind₂ : Option (String × Nat)) (timeout₁ timeout₂ : ℚ)
    (ep₁ ep₂ : Nat) (dst₁ dst₂ : List Nat) :
    (SocketConnection.init env t host₁ port₁ proto₁ bind₁ timeout₁ ep₁
        dst₁).table = { t with udp := env } ∧
    (SocketConnection.init env
        (SocketConnection.init env t host₁ port₁ proto₁ bind₁ timeout₁ ep₁
          dst₁).table
        host₂ port₂ proto₂ bind₂ timeout₂ ep₂ dst₂).table
      = (SocketConnection.init env t host₁ port₁ proto₁ bind₁ timeout₁ ep₁
          dst₁).table ∧
    (SocketConnection.init env t host₁ port₁ proto₁ bind₁ timeout₁ ep₁
        dst₁).table.rawL2 = t.rawL2 ∧
    (SocketConnection.init env t host₁ port₁ proto₁ bind₁ timeout₁ ep₁
        dst₁).table.rawL3 = t.rawL3 :=
  ⟨rfl, rfl, rfl, rfl⟩

/-- **C10.** On a `raw-l2` or `raw-l3` connection, `recv` performs no
operation on the socket handle: it returns an empty payload without raising
even when no live handle exists (`sock = none`, i.e. before any `open()` or
after `close()`), and its result is independent of the handle state. -/
theorem raw_recv_no_handle (c : SocketConnection)
    (h : c.proto = "raw-l2" ∨ c.proto = "raw-l3") :
    ∀ max_bytes : Nat,
      c.recv none max_bytes = .ok [] ∧
      ∀ sock : Option SockOutcome,
        c.recv sock max_bytes = c.recv none max_bytes := by
  intro max_bytes
  rcases h with h | h <;>
    exact ⟨by simp [SocketConnection.recv, recvBody, h],
           fun sock => by simp [SocketConnection.recv, recvBody, h]⟩

/-- Witness for C10, at a concrete `raw-l3` connection with no live
handle. -/
theorem raw_recv_no_handle_witness :
    rawL3Conn.recv none 64 = .ok [] ∧
    rawL3Conn.recv (some .timeout) 64 = rawL3Conn.recv none 64 :=
  ⟨(raw_recv_no_handle rawL3Conn (Or.inr rfl) 64).1,
   (raw_recv_no_handle rawL3Conn (Or.inr rfl) 64).2 (some .timeout)⟩

end Boofuzz
